import Mathlib

/-!
Shallow embedding of the `RowStream` buffered row cursor of the
`@sabl/db-driver` package (source file `row-stream.ts`), together with
theorems settling the specified properties of its state machine.

Modelling conventions:
* The mutable private fields of the `RowStream` class become the fields of
  the `RowStream` structure below; each method becomes a function from a
  state to a new state plus the list of events it emits, in emission order.
* Promise cells (`#waitReady`, `#waitNext`, `#waitClose`) are modelled as
  Booleans recording whether a pending promise exists; settling such a
  promise is recorded as an event (`nextResolved`, `nextRejected`,
  `readyResolved`, `closeResolved`).  The `waitClose.then(() =>
  wnx.resolve(false))` chain installed by `close()` is recorded by the
  `nextChained` flag and collapsed at the point `waitClose` is resolved.
* JavaScript numbers in the backpressure options are modelled as `Int`
  (all claims concern integral counts); `Math.floor(pauseCount / 2)` for a
  nonnegative integral `pauseCount` is integer division by 2.
* The row type is a parameter `ρ`: the cursor never inspects rows.
* Thrown errors are returned as an explicit outcome, with the state
  component unchanged, matching that a synchronous throw mutates nothing.
-/

namespace DbDriver

/-- Error value: a JavaScript `Error` is identified by its message. -/
structure Err where
  message : String
deriving DecidableEq, Repr

/-- Possible shapes of the `unknown` value passed to `error(err)` /
`asError`: null or undefined, an `Error` instance, a non-error object with
a `message` property, or any other value (represented by its string
conversion). -/
inductive ErrInput
  | null
  | error (e : Err)
  | objWithMessage (m : String)
  | other (s : String)
deriving DecidableEq, Repr

/-- Translation of the exported `asError` helper of `row-stream.ts`. -/
def asError : ErrInput → Option Err
  | .null => none
  | .error e => some e
  | .objWithMessage m => some (Err.mk m)
  | .other s => some (Err.mk s)

/-- Translation of `ColumnInfo` from `@sabl/db-api`. -/
structure ColumnInfo where
  name : String
  typeName : String
  nullable : Bool
deriving DecidableEq, Repr

/-- Modelled from the spec: the external `Row` value object of the
`@sabl/db-api` collaborator (not part of this repository): an ordered
sequence of values plus the field names used to interpret them.  A value
of `none` models a JavaScript `undefined` entry. -/
structure Row (α : Type) where
  fieldNames : List String
  values : List (Option α)
deriving DecidableEq, Repr

/-- Modelled from the spec: `Row.fromArray(values, fieldNames)` of
`@sabl/db-api`, a deterministic pure constructor. -/
def Row.fromArray (values : List α) (fieldNames : List String) : Row α :=
  Row.mk fieldNames (values.map some)

/-- Modelled from the spec: `Row.fromObject(record, fieldNames)` of
`@sabl/db-api`, a deterministic pure constructor reading each field name
out of the plain record. -/
def Row.fromObject (record : List (String × α)) (fieldNames : List String) : Row α :=
  Row.mk fieldNames (fieldNames.map (fun n => (record.find? (fun p => p.1 == n)).map (·.2)))

/-- Translation of `RowStreamOptions`. -/
structure RowStreamOptions where
  pauseCount : Option Int
  resumeCount : Option Int
deriving DecidableEq, Repr

/-- Events emitted by a `RowStream`, including promise settlements.
`pause`, `resume`, `cancel` and `complete` are the `EventEmitter` events;
`nextResolved` / `nextRejected` record settling the promise of a pending
`next()` call; `readyResolved` records settling the promise of a pending
`ready()` call; `closeResolved` records settling the promise of a pending
`close()` call. -/
inductive Ev
  | pause
  | resume
  | cancel
  | complete
  | nextResolved (b : Bool)
  | nextRejected (e : Err)
  | readyResolved (e : Option Err)
  | closeResolved
deriving DecidableEq, Repr

/-- State of a `RowStream`: one field per private field of the class.
`waitReady` / `waitNext` / `waitClose` record whether the corresponding
promise cell is non-null; `onCancel` records whether the external
cancellation callback is currently registered; `nextChained` records that
a cleared pending `next()` was chained to resolve `false` when the
pending `close()` resolves. -/
structure RowStream (ρ : Type) where
  buf : List ρ
  canPause : Bool
  pauseCount : Option Int
  resumeCount : Option Int
  row : Option ρ
  columns : Option (List ColumnInfo)
  fieldNames : Option (List String)
  err : Option Err
  ready : Bool
  done : Bool
  closing : Bool
  closed : Bool
  canceling : Bool
  paused : Bool
  waitReady : Bool
  waitNext : Bool
  nextChained : Bool
  waitClose : Bool
  onCancel : Bool
deriving DecidableEq, Repr

namespace RowStream

variable {ρ : Type}

/-- Translation of `#validateOptions`: returns `(canPause, pauseCount,
resumeCount)` or the validation error thrown. -/
def validateOptions (options : Option RowStreamOptions) :
    Except Err (Bool × Option Int × Option Int) :=
  match options with
  | none => .ok (false, none, none)
  | some o =>
    match o.pauseCount with
    | none =>
      if o.resumeCount.isSome then
        .error (Err.mk "pauseCount must be provided with resumeCount")
      else
        .ok (false, none, none)
    | some pauseCount =>
      if pauseCount < 2 then
        .error (Err.mk "pauseCount must more than 1")
      else
        match o.resumeCount with
        | none => .ok (true, some pauseCount, some (pauseCount / 2))
        | some resumeCount =>
          if resumeCount < 0 then
            .error (Err.mk "resumeCount cannot be negative")
          else if resumeCount ≥ pauseCount then
            .error (Err.mk "resumeCount must be less than pauseCount")
          else
            .ok (true, some pauseCount, some resumeCount)

/-- Fresh field values of a `RowStream`, as set by the field initial
values and the tail of the constructor.  `hasClr` records whether a
`Canceler` was supplied (in which case the cancel callback is
registered). -/
def newStream (ρ : Type) (hasClr : Bool) (canPause : Bool)
    (pauseCount resumeCount : Option Int) : RowStream ρ where
  buf := []
  canPause := canPause
  pauseCount := if canPause then pauseCount else none
  resumeCount := if canPause then resumeCount else none
  row := none
  columns := none
  fieldNames := none
  err := none
  ready := false
  done := false
  closing := false
  closed := false
  canceling := false
  paused := false
  waitReady := false
  waitNext := false
  nextChained := false
  waitClose := false
  onCancel := hasClr

/-- Translation of the `RowStream` constructor: validate the options, then
build the fresh state; a validation failure propagates and no stream is
constructed. -/
def make (ρ : Type) (hasClr : Bool) (options : Option RowStreamOptions) :
    Except Err (RowStream ρ) :=
  match validateOptions options with
  | .error e => .error e
  | .ok (canPause, pc, rc) => .ok (newStream ρ hasClr canPause pc rc)

/-- Total variant of `make` used to build concrete scenario states; on a
validation error it falls back to a fresh default stream (never exercised
by the scenarios below). -/
def makeD (ρ : Type) (hasClr : Bool) (options : Option RowStreamOptions) : RowStream ρ :=
  match make ρ hasClr options with
  | .ok s => s
  | .error _ => newStream ρ false false none none

/-- Translation of `#resolveReady`: mark ready and settle a pending
`ready()` promise if one exists. -/
def resolveReady (s : RowStream ρ) (e : Option Err) : RowStream ρ × List Ev :=
  if s.waitReady then
    ({ s with ready := true, waitReady := false }, [Ev.readyResolved e])
  else
    ({ s with ready := true }, [])

/-- Translation of `#setColumns`. -/
def setColumnsImpl (s : RowStream ρ) (columns : List ColumnInfo) : RowStream ρ × List Ev :=
  let s1 := { s with columns := some columns,
                     fieldNames := some (columns.map (·.name)) }
  if !s1.ready then resolveReady s1 none else (s1, [])

/-- Translation of `#pause`. -/
def pauseImpl (s : RowStream ρ) : RowStream ρ × List Ev :=
  ({ s with paused := true }, [Ev.pause])

/-- Translation of `#resume`. -/
def resumeImpl (s : RowStream ρ) : RowStream ρ × List Ev :=
  ({ s with paused := false }, [Ev.resume])

/-- Translation of `#pushRow`: ignore the row while canceling; hand it
directly to a pending `next()` when the buffer is empty; else append to
the buffer and raise `pause` at the watermark.  The `none` branch of the
`pauseCount` match mirrors `buf.length >= undefined` being false. -/
def pushRowImpl (s : RowStream ρ) (r : ρ) : RowStream ρ × List Ev :=
  if s.canceling then
    (s, [])
  else if s.buf.isEmpty && s.waitNext then
    ({ s with waitNext := false, row := some r }, [Ev.nextResolved true])
  else
    let s1 := { s with buf := s.buf ++ [r] }
    if s1.canPause then
      if !s1.paused then
        match s1.pauseCount with
        | some p => if p ≤ (s1.buf.length : Int) then pauseImpl s1 else (s1, [])
        | none => (s1, [])
      else (s1, [])
    else (s1, [])

/-- Outcome of an `async close()` call: either its promise is already
resolved when the call returns, or it is pending (resolved later when the
controller signals end). -/
inductive CloseOutcome
  | resolved
  | pending
deriving DecidableEq, Repr

/-- Translation of `close()`.  Idempotent when closed; returns the
in-flight promise when closing; otherwise begins closing, resolving
`ready` if needed, de-registering the cancel callback, finalizing at once
when the controller is already done, and else emitting `cancel` (if not
already canceling) and registering the pending close promise, chaining
any pending `next()` to it. -/
def closeImpl (s : RowStream ρ) : RowStream ρ × List Ev × CloseOutcome :=
  if s.closed then
    (s, [], CloseOutcome.resolved)
  else if s.closing then
    (s, [], CloseOutcome.pending)
  else
    let s1 := { s with closing := true }
    let t1 := if !s1.ready then resolveReady s1 none else (s1, [])
    let s2 := t1.1
    let s3 := if s2.onCancel then { s2 with onCancel := false } else s2
    let wnx := s3.waitNext
    if s3.done then
      let s4 := { s3 with closed := true, closing := false }
      if wnx then
        ({ s4 with waitNext := false },
          t1.2 ++ [Ev.nextResolved false], CloseOutcome.resolved)
      else
        (s4, t1.2, CloseOutcome.resolved)
    else
      let t2 :=
        if !s3.canceling then
          ({ s3 with canceling := true }, [Ev.cancel])
        else (s3, ([] : List Ev))
      let s5 := { t2.1 with waitClose := true }
      if wnx then
        ({ s5 with waitNext := false, nextChained := true },
          t1.2 ++ t2.2, CloseOutcome.pending)
      else
        (s5, t1.2 ++ t2.2, CloseOutcome.pending)

/-- Translation of `#end`: mark done; force `ready` via empty columns if
needed; emit `complete`; resolve a pending close (also settling a chained
pending `next()`), or finalize directly when a terminal error exists; then
run `close()` when a pending `next()` remains with an empty buffer. -/
def endImpl (s : RowStream ρ) : RowStream ρ × List Ev :=
  let s1 := { s with done := true }
  let t1 := if !s1.ready then setColumnsImpl s1 [] else (s1, [])
  let s2 := t1.1
  let evs2 := t1.2 ++ [Ev.complete]
  let t3 :=
    if s2.waitClose then
      let s3 := { s2 with closed := true, closing := false, waitClose := false }
      if s3.nextChained then
        ({ s3 with nextChained := false },
          [Ev.closeResolved, Ev.nextResolved false])
      else
        (s3, [Ev.closeResolved])
    else if s2.err.isSome then
      ({ s2 with closed := true, closing := false }, ([] : List Ev))
    else (s2, ([] : List Ev))
  let s4 := t3.1
  if s4.waitNext && s4.buf.isEmpty then
    let t4 := closeImpl s4
    (t4.1, evs2 ++ t3.2 ++ t4.2.1)
  else
    (s4, evs2 ++ t3.2)

/-- Translation of `#cancel`: no-op while already canceling; else set the
canceling flag and the error, de-register the external callback, emit
`cancel`, resolve `ready` with the error if unready, reject a pending
`next()`, and end. -/
def cancelImpl (s : RowStream ρ) (e : Err) : RowStream ρ × List Ev :=
  if s.canceling then
    (s, [])
  else
    let s1 := { s with canceling := true, err := some e }
    let s2 := if s1.onCancel then { s1 with onCancel := false } else s1
    let evs1 := [Ev.cancel]
    let t2 := if !s2.ready then resolveReady s2 (some e) else (s2, [])
    let s3 := t2.1
    let t3 :=
      if s3.waitNext then
        ({ s3 with waitNext := false }, [Ev.nextRejected e])
      else (s3, ([] : List Ev))
    let t4 := endImpl t3.1
    (t4.1, evs1 ++ t2.2 ++ t3.2 ++ t4.2)

/-- Translation of `#error`: normalize the error (with the fallback
message for a null input), store it, cancel with it, then end (again). -/
def errorImpl (s : RowStream ρ) (e : ErrInput) : RowStream ρ × List Ev :=
  let er := (asError e).getD (Err.mk "Underlying stream encountered an error")
  let s1 := { s with err := some er }
  let t2 := cancelImpl s1 er
  let t3 := endImpl t2.1
  (t3.1, t2.2 ++ t3.2)

/-- Outcome of an `async next()` call: resolved immediately with a Bool,
resolved with a Bool only after the in-flight close resolves, left
pending, or a synchronously thrown error. -/
inductive NextOutcome
  | ret (b : Bool)
  | afterClose (b : Bool)
  | pending
  | threw (e : Err)
deriving DecidableEq, Repr

/-- Translation of `next()`.  Returns false when closed; awaits the
in-flight close when closing; throws when a pull is already pending;
dequeues the buffer head (raising `resume` at the watermark) when data is
buffered; auto-closes when done with an empty buffer; else registers the
pending pull. -/
def nextImpl (s : RowStream ρ) : RowStream ρ × List Ev × NextOutcome :=
  if s.closed then
    (s, [], NextOutcome.ret false)
  else if s.closing then
    let t := closeImpl s
    (t.1, t.2.1, NextOutcome.afterClose false)
  else if s.waitNext then
    (s, [], NextOutcome.threw (Err.mk "Existing next() call has not yet resolved"))
  else
    match s.buf with
    | r :: rest =>
      let s1 := { s with buf := rest, row := some r }
      let t :=
        if s1.canPause then
          if s1.paused then
            match s1.resumeCount with
            | some rc =>
              if (s1.buf.length : Int) ≤ rc then resumeImpl s1 else (s1, [])
            | none => (s1, [])
          else (s1, [])
        else (s1, [])
      (t.1, t.2, NextOutcome.ret true)
    | [] =>
      if s.done then
        let t := closeImpl s
        (t.1, t.2.1, NextOutcome.ret false)
      else
        ({ s with waitNext := true }, [], NextOutcome.pending)

/-- Translation of `#ensureFields` followed by `#pushRow`, as performed by
the controller method `pushRow`: throws a state error when columns are not
yet set, leaving the state untouched. -/
def ctrlPushRow (s : RowStream ρ) (r : ρ) : RowStream ρ × List Ev × Option Err :=
  match s.fieldNames with
  | none => (s, [], some (Err.mk "Cannot pushRow: Column info not yet set"))
  | some _ =>
    let t := pushRowImpl s r
    (t.1, t.2, none)

/-- Translation of the controller method `pushArray`: `#ensureFields`
followed by `#pushArray`, which pushes `Row.fromArray(row, fieldNames)`. -/
def ctrlPushArray (s : RowStream (Row α)) (vs : List α) :
    RowStream (Row α) × List Ev × Option Err :=
  match s.fieldNames with
  | none => (s, [], some (Err.mk "Cannot pushArray: Column info not yet set"))
  | some fs =>
    let t := pushRowImpl s (Row.fromArray vs fs)
    (t.1, t.2, none)

/-- Translation of the controller method `pushObject`: `#ensureFields`
followed by `#pushObject`, which pushes `Row.fromObject(row, fieldNames)`. -/
def ctrlPushObject (s : RowStream (Row α)) (record : List (String × α)) :
    RowStream (Row α) × List Ev × Option Err :=
  match s.fieldNames with
  | none => (s, [], some (Err.mk "Cannot pushObject: Column info not yet set"))
  | some fs =>
    let t := pushRowImpl s (Row.fromObject record fs)
    (t.1, t.2, none)

/-- Push a list of rows in order via `#pushRow`, concatenating the emitted
events. -/
def runPushes (s : RowStream ρ) (rows : List ρ) : RowStream ρ × List Ev :=
  match rows with
  | [] => (s, [])
  | r :: rest =>
    let t := pushRowImpl s r
    let u := runPushes t.1 rest
    (u.1, t.2 ++ u.2)

/-- Perform a number of `next()` calls in order, collecting the events
emitted by each call separately. -/
def runNexts (s : RowStream ρ) : Nat → RowStream ρ × List (List Ev)
  | 0 => (s, [])
  | n + 1 =>
    let t := nextImpl s
    let u := runNexts t.1 n
    (u.1, t.2.1 :: u.2)

/-- One consumer-visible operation during the collecting phase: one of
the three controller push variants, or a `next()` call. -/
inductive ConsumerOp (α : Type)
  | pushR (r : Row α)
  | pushA (vs : List α)
  | pushO (record : List (String × α))
  | next
deriving DecidableEq, Repr

/-- The canonical Row a push variant hands to `#pushRow`, given the field
names of the stream; a `next` pushes nothing. -/
def ConsumerOp.normRow (fs : List String) : ConsumerOp α → Option (Row α)
  | .pushR r => some r
  | .pushA vs => some (Row.fromArray vs fs)
  | .pushO record => some (Row.fromObject record fs)
  | .next => none

/-- Rows pushed by a sequence of operations, in push order. -/
def pushedRows (fs : List String) (ops : List (ConsumerOp α)) : List (Row α) :=
  ops.filterMap (ConsumerOp.normRow fs)

/-- Execute one consumer operation.  The second component is the list of
rows the consumer observes through the `row` accessor as a result of the
operation: the new current row when a `next()` call resolves `true`, or
when a push settles a pending `next()` promise with `true`. -/
def stepOp (s : RowStream (Row α)) : ConsumerOp α → RowStream (Row α) × List (Row α)
  | .pushR r =>
    let t := ctrlPushRow s r
    (t.1, if Ev.nextResolved true ∈ t.2.1 then t.1.row.toList else [])
  | .pushA vs =>
    let t := ctrlPushArray s vs
    (t.1, if Ev.nextResolved true ∈ t.2.1 then t.1.row.toList else [])
  | .pushO record =>
    let t := ctrlPushObject s record
    (t.1, if Ev.nextResolved true ∈ t.2.1 then t.1.row.toList else [])
  | .next =>
    let t := nextImpl s
    (t.1, if t.2.2 = NextOutcome.ret true then t.1.row.toList else [])

/-- Execute a sequence of consumer operations, concatenating the observed
rows in order. -/
def runOps (s : RowStream (Row α)) : List (ConsumerOp α) → RowStream (Row α) × List (Row α)
  | [] => (s, [])
  | op :: rest =>
    let t := stepOp s op
    let u := runOps t.1 rest
    (u.1, t.2 ++ u.2)

end RowStream

namespace Scenario

open RowStream

/-- Column metadata used by the concrete scenarios. -/
def cols : List ColumnInfo := [ColumnInfo.mk "id" "number" false]

/-- Scenario A, step 0: a stream constructed with
`{pauseCount: 5, resumeCount: 3}`. -/
def a0 : RowStream Nat :=
  makeD Nat false (some (RowStreamOptions.mk (some 5) (some 3)))

/-- Scenario A, step 1: columns set. -/
def a1 : RowStream Nat := (setColumnsImpl a0 cols).1

/-- Scenario A, step 2: six rows pushed with no pull pending. -/
def a2 : RowStream Nat × List Ev := runPushes a1 [1, 2, 3, 4, 5, 6]

/-- Scenario A, step 3: four `next()` calls, with per-call event lists. -/
def a3 : RowStream Nat × List (List Ev) := runNexts a2.1 4

/-- Error scenario: a fresh stream on which the producer immediately calls
`error(new Error("oh no"))`. -/
def errRun : RowStream Nat × List Ev :=
  errorImpl (makeD Nat false none) (ErrInput.error (Err.mk "oh no"))

end Scenario

namespace Scenario

open RowStream

/-- Fresh stream with no options and no canceler. -/
def fresh : RowStream Nat := makeD Nat false none

/-- Fresh stream with columns set: the ready collecting state. -/
def ready0 : RowStream Nat := (setColumnsImpl fresh cols).1

/-- Ready stream on which one `next()` call is pending. -/
def pend : RowStream Nat := (nextImpl ready0).1

/-- Ready stream on which the consumer has called `close()` before the
producer signaled end, so the canceling flag is set. -/
def canceled : RowStream Nat := (closeImpl ready0).1

/-- Fresh stream over the modelled `Row` type, columns not yet set. -/
def freshR : RowStream (Row Nat) := makeD (Row Nat) false none

/-- Ready stream over the modelled `Row` type. -/
def readyR : RowStream (Row Nat) := (setColumnsImpl freshR cols).1

end Scenario

open RowStream Scenario

/-- C1 counterexample: in Scenario A (`pauseCount 5`, `resumeCount 3`,
six rows pushed, four pulls) the single `resume` event is NOT fired on
the 4th pull as the claim states: the 4th pull emits no events at all,
because `resume` already fired on the 3rd pull, the one that brings the
buffer down to 3 = `resumeCount`. -/
theorem scenarioA_resume_not_on_fourth_pull :
    Ev.resume ∉ a3.2.getD 3 [] ∧ a3.2.getD 2 [] = [Ev.resume] := by
  decide

/-- C1 (amended): in Scenario A, pushing 6 rows with no pull pending
emits exactly one `pause` event and leaves buffer size 6; then four
`next()` calls leave buffer size 2 and emit exactly one `resume` event,
fired on the 3rd pull (the pull that brings the buffer size down to
`resumeCount = 3`), the stream being unpaused afterwards. -/
theorem scenarioA_backpressure_amended :
    a2.2.count Ev.pause = 1
  ∧ a2.1.buf.length = 6
  ∧ a3.1.buf.length = 2
  ∧ (a3.2.flatten).count Ev.resume = 1
  ∧ a3.2.getD 2 [] = [Ev.resume]
  ∧ a3.1.paused = false := by
  decide

/-- C2 (code bug): when the producer terminates via `end()` alone the
`complete` event is emitted exactly once, but when it terminates via
`error(err)` the event is emitted TWICE: `#error` calls `#cancel`, which
already calls `#end` (first `complete`), and then `#error` calls `#end`
again (second `complete`), contradicting the exactly-once completion
contract. -/
theorem error_emits_complete_twice :
    (endImpl fresh).2.count Ev.complete = 1
  ∧ errRun.2.count Ev.complete = 2
  ∧ errRun.1.closed = true := by
  decide

/-- C6: once the canceling flag is set, `#pushRow` discards the row
silently: the state (in particular the buffer) is completely unchanged
and no event is emitted, so the row can never be observed by any
subsequent pull. -/
theorem push_while_canceling_is_discarded {ρ : Type} (s : RowStream ρ) (r : ρ)
    (h : s.canceling = true) :
    pushRowImpl s r = (s, []) := by
  simp [pushRowImpl, h]

/-- C6 witness: a stream canceled by an early `close()` discards a pushed
row without any state change. -/
theorem push_while_canceling_is_discarded_witness :
    canceled.canceling = true ∧ pushRowImpl canceled 7 = (canceled, []) :=
  ⟨by decide, push_while_canceling_is_discarded canceled 7 (by decide)⟩

/-- C8: before `setColumns` has been called each of the three controller
push variants fails synchronously with the state error naming the
operation, and the state is untouched (no row is buffered). -/
theorem push_before_columns_throws {α : Type} (s : RowStream (Row α))
    (r : Row α) (vs : List α) (record : List (String × α))
    (h : s.fieldNames = none) :
    ctrlPushRow s r = (s, [], some (Err.mk "Cannot pushRow: Column info not yet set"))
  ∧ ctrlPushArray s vs = (s, [], some (Err.mk "Cannot pushArray: Column info not yet set"))
  ∧ ctrlPushObject s record = (s, [], some (Err.mk "Cannot pushObject: Column info not yet set")) := by
  refine ⟨?_, ?_, ?_⟩ <;> simp [ctrlPushRow, ctrlPushArray, ctrlPushObject, h]

/-- C8 witness: the three push variants all throw on a fresh stream whose
columns are not yet set. -/
theorem push_before_columns_throws_witness :
    freshR.fieldNames = none
  ∧ ctrlPushRow freshR (Row.fromArray [1] ["id"]) =
      (freshR, [], some (Err.mk "Cannot pushRow: Column info not yet set"))
  ∧ ctrlPushArray freshR [1] =
      (freshR, [], some (Err.mk "Cannot pushArray: Column info not yet set"))
  ∧ ctrlPushObject freshR [("id", 1)] =
      (freshR, [], some (Err.mk "Cannot pushObject: Column info not yet set")) := by
  have h := push_before_columns_throws freshR (Row.fromArray [1] ["id"])
    [1] [("id", 1)] (by decide)
  exact ⟨by decide, h.1, h.2.1, h.2.2⟩

/-- C9: a `next()` call issued while a previous one is still pending (and
the cursor is neither closed nor closing) throws the state error whose
message mentions the outstanding `next()` call, and leaves the state
(including the pending pull) unchanged. -/
theorem second_next_while_pending_throws {ρ : Type} (s : RowStream ρ)
    (h1 : s.closed = false) (h2 : s.closing = false) (h3 : s.waitNext = true) :
    nextImpl s = (s, [], NextOutcome.threw
      (Err.mk "Existing next() call has not yet resolved")) := by
  simp [nextImpl, h1, h2, h3]

/-- C9 witness: a second `next()` on a stream with one pending pull throws
and changes nothing. -/
theorem second_next_while_pending_throws_witness :
    pend.closed = false ∧ pend.closing = false ∧ pend.waitNext = true
  ∧ nextImpl pend = (pend, [], NextOutcome.threw
      (Err.mk "Existing next() call has not yet resolved")) :=
  ⟨by decide, by decide, by decide,
    second_next_while_pending_throws pend (by decide) (by decide) (by decide)⟩

/-- C3: when the producer calls `error(err)` while a pull is pending (so
cancellation has not begun yet), the pending `next()` promise is rejected
with the normalized error, the `err` accessor subsequently returns that
same error, and the cursor ends up closed. -/
theorem error_rejects_pending_next {ρ : Type} (s : RowStream ρ) (e : ErrInput)
    (h1 : s.waitNext = true) (h2 : s.canceling = false) :
    Ev.nextRejected ((asError e).getD (Err.mk "Underlying stream encountered an error"))
        ∈ (errorImpl s e).2
  ∧ (errorImpl s e).1.err
      = some ((asError e).getD (Err.mk "Underlying stream encountered an error"))
  ∧ (errorImpl s e).1.closed = true := by
  cases hr : s.ready <;> cases hwr : s.waitReady <;> cases hoc : s.onCancel <;>
    cases hwc : s.waitClose <;> cases hnc : s.nextChained <;>
      simp [errorImpl, cancelImpl, endImpl, closeImpl, setColumnsImpl, resolveReady,
        h1, h2, hr, hwr, hoc, hwc, hnc]

/-- C3 witness: erroring a stream with a pending pull rejects that pull
with the error, stores it, and closes the cursor. -/
theorem error_rejects_pending_next_witness :
    pend.waitNext = true ∧ pend.canceling = false
  ∧ (Ev.nextRejected (Err.mk "oh no") ∈ (errorImpl pend (ErrInput.error (Err.mk "oh no"))).2
    ∧ (errorImpl pend (ErrInput.error (Err.mk "oh no"))).1.err = some (Err.mk "oh no")
    ∧ (errorImpl pend (ErrInput.error (Err.mk "oh no"))).1.closed = true) :=
  ⟨by decide, by decide,
    error_rejects_pending_next pend (ErrInput.error (Err.mk "oh no")) (by decide) (by decide)⟩

/-- Helper for the close-before-end property: the outcome and result
fields of a first `close()` issued before the producer is done and before
any cancellation has begun. -/
theorem closeImpl_before_end_spec {ρ : Type} (s : RowStream ρ)
    (h1 : s.closed = false) (h2 : s.closing = false) (h3 : s.done = false)
    (h4 : s.canceling = false) :
    (closeImpl s).2.2 = CloseOutcome.pending
  ∧ Ev.cancel ∈ (closeImpl s).2.1
  ∧ (closeImpl s).1.closed = false
  ∧ (closeImpl s).1.waitClose = true := by
  cases hr : s.ready <;> cases hwr : s.waitReady <;> cases hwn : s.waitNext <;>
    cases hoc : s.onCancel <;>
      simp [closeImpl, resolveReady, h1, h2, h3, h4, hr, hwr, hwn, hoc]

/-- Helper for the close-before-end property: `#end` settles a pending
close promise and finalizes the cursor to closed. -/
theorem endImpl_resolves_pending_close {ρ : Type} (s : RowStream ρ)
    (h : s.waitClose = true) :
    Ev.closeResolved ∈ (endImpl s).2 ∧ (endImpl s).1.closed = true := by
  cases hr : s.ready <;> cases hwr : s.waitReady <;> cases hnc : s.nextChained <;>
    cases hwn : s.waitNext <;> cases hb : s.buf.isEmpty <;>
      simp [endImpl, setColumnsImpl, resolveReady, closeImpl, h, hr, hwr, hnc, hwn, hb]

/-- C4: a `close()` call made before the producer has signaled end (and
before any cancellation) emits a `cancel` event synchronously during the
call, returns a still-pending promise (so close has not resolved), and
that promise is resolved — with the cursor finalized to closed — by the
producer subsequently calling `end()`. -/
theorem close_before_end_waits_for_end {ρ : Type} (s : RowStream ρ)
    (h1 : s.closed = false) (h2 : s.closing = false) (h3 : s.done = false)
    (h4 : s.canceling = false) :
    (closeImpl s).2.2 = CloseOutcome.pending
  ∧ Ev.cancel ∈ (closeImpl s).2.1
  ∧ (closeImpl s).1.closed = false
  ∧ (closeImpl s).1.waitClose = true
  ∧ Ev.closeResolved ∈ (endImpl (closeImpl s).1).2
  ∧ (endImpl (closeImpl s).1).1.closed = true := by
  obtain ⟨ho, hc, hcl, hwc⟩ := closeImpl_before_end_spec s h1 h2 h3 h4
  obtain ⟨he1, he2⟩ := endImpl_resolves_pending_close (closeImpl s).1 hwc
  exact ⟨ho, hc, hcl, hwc, he1, he2⟩

/-- C4 witness: closing a ready stream before end emits `cancel` and
pends; the subsequent `end()` resolves the close and finalizes. -/
theorem close_before_end_waits_for_end_witness :
    ready0.closed = false ∧ ready0.closing = false ∧ ready0.done = false
  ∧ ready0.canceling = false
  ∧ ((closeImpl ready0).2.2 = CloseOutcome.pending
    ∧ Ev.cancel ∈ (closeImpl ready0).2.1
    ∧ (closeImpl ready0).1.closed = false
    ∧ (closeImpl ready0).1.waitClose = true
    ∧ Ev.closeResolved ∈ (endImpl (closeImpl ready0).1).2
    ∧ (endImpl (closeImpl ready0).1).1.closed = true) :=
  ⟨by decide, by decide, by decide, by decide,
    close_before_end_waits_for_end ready0 (by decide) (by decide) (by decide) (by decide)⟩

/-- C7: constructing with `pauseCount = p ≥ 2` and no `resumeCount`
succeeds and derives `resumeCount = p / 2`, the floor of `p` halved (the
two inequality conjuncts pin the division down as the floor); and with a
provided `pauseCount`, construction fails synchronously with a validation
error — returning no stream at all — whenever `p < 2`, or the provided
`resumeCount` is negative or at least `p`. -/
theorem make_backpressure_validation (p : Int) (rc : Option Int) :
    (2 ≤ p →
      ∃ s : RowStream Nat,
        make Nat false (some (RowStreamOptions.mk (some p) none)) = .ok s
        ∧ s.canPause = true ∧ s.pauseCount = some p ∧ s.resumeCount = some (p / 2)
        ∧ 2 * (p / 2) ≤ p ∧ p < 2 * (p / 2) + 2)
  ∧ ((p < 2 ∨ (∃ r, rc = some r ∧ (r < 0 ∨ p ≤ r))) →
      ∃ e : Err, make Nat false (some (RowStreamOptions.mk (some p) rc)) = .error e) := by
  constructor
  · intro hp
    have hmk : make Nat false (some (RowStreamOptions.mk (some p) none))
        = .ok (newStream Nat false true (some p) (some (p / 2))) := by
      simp [make, validateOptions, not_lt.mpr hp]
    exact ⟨_, hmk, rfl, rfl, rfl, by omega, by omega⟩
  · rintro (hlt | ⟨r, hrc, hr⟩)
    · refine ⟨Err.mk "pauseCount must more than 1", ?_⟩
      simp [make, validateOptions, hlt]
    · subst hrc
      rcases lt_or_le p 2 with hp | hp
      · refine ⟨Err.mk "pauseCount must more than 1", ?_⟩
        simp [make, validateOptions, hp]
      · rcases hr with hneg | hge
        · refine ⟨Err.mk "resumeCount cannot be negative", ?_⟩
          simp [make, validateOptions, not_lt.mpr hp, hneg]
        · refine ⟨Err.mk "resumeCount must be less than pauseCount", ?_⟩
          have h0 : ¬ r < 0 := by omega
          simp [make, validateOptions, not_lt.mpr hp, h0, ge_iff_le, hge]

/-- C7 witness: `pauseCount 5` alone derives `resumeCount 2`; the
configurations `pauseCount 1`, `(5, 5)` and `(5, -1)` all fail. -/
theorem make_backpressure_validation_witness :
    (∃ s : RowStream Nat,
      make Nat false (some (RowStreamOptions.mk (some 5) none)) = .ok s
      ∧ s.canPause = true ∧ s.pauseCount = some 5 ∧ s.resumeCount = some 2)
  ∧ (∃ e : Err, make Nat false (some (RowStreamOptions.mk (some 1) none)) = .error e)
  ∧ (∃ e : Err, make Nat false (some (RowStreamOptions.mk (some 5) (some 5))) = .error e)
  ∧ (∃ e : Err, make Nat false (some (RowStreamOptions.mk (some 5) (some (-1)))) = .error e) := by
  refine ⟨?_, ?_, ?_, ?_⟩
  · obtain ⟨s, hs, hcp, hpc, hrc, -, -⟩ :=
      (make_backpressure_validation 5 none).1 (by decide)
    exact ⟨s, hs, hcp, hpc, hrc⟩
  · exact (make_backpressure_validation 1 none).2 (Or.inl (by decide))
  · exact (make_backpressure_validation 5 (some 5)).2
      (Or.inr ⟨5, rfl, Or.inr (by decide)⟩)
  · exact (make_backpressure_validation 5 (some (-1))).2
      (Or.inr ⟨-1, rfl, Or.inl (by decide)⟩)

/-- Helper for the FIFO property: during collection (not canceling),
`#pushRow` either hands the row to the pending pull or appends it to the
buffer tail, so the row observed through the `row` accessor (if any)
followed by the new buffer is the old buffer followed by the pushed row;
the phase flags and field names are untouched. -/
theorem pushRowImpl_spec {ρ : Type} (s : RowStream ρ) (r : ρ)
    (hc : s.canceling = false) :
    (if Ev.nextResolved true ∈ (pushRowImpl s r).2 then
        (pushRowImpl s r).1.row.toList else [])
        ++ (pushRowImpl s r).1.buf = s.buf ++ [r]
  ∧ (pushRowImpl s r).1.fieldNames = s.fieldNames
  ∧ (pushRowImpl s r).1.canceling = false
  ∧ (pushRowImpl s r).1.closed = s.closed
  ∧ (pushRowImpl s r).1.closing = s.closing
  ∧ (pushRowImpl s r).1.done = s.done := by
  cases hbw : s.buf.isEmpty && s.waitNext
  · rcases hpc : s.pauseCount with _ | pv <;>
      cases hcp : s.canPause <;> cases hp : s.paused <;>
        simp [pushRowImpl, pauseImpl, hc, hbw, hpc, hcp, hp] <;>
          split_ifs <;> simp_all
  · simp only [Bool.and_eq_true] at hbw
    obtain ⟨hbe0, hwn⟩ := hbw
    have hbe : s.buf = [] := by
      cases hb : s.buf
      · rfl
      · rw [hb] at hbe0
        simp [List.isEmpty] at hbe0
    simp [pushRowImpl, hc, hbe, hwn]

/-- Helper for the FIFO property: during collection (not closed, not
closing, not done), `next()` either dequeues the buffer head into the
`row` accessor, throws on a duplicate pull, or registers the pending
pull; in each case the observed row (if any) followed by the new buffer
is the old buffer, and phase flags and field names are untouched. -/
theorem nextImpl_collecting_spec {ρ : Type} (s : RowStream ρ)
    (hcl : s.closed = false) (hcg : s.closing = false) (hd : s.done = false) :
    (if (nextImpl s).2.2 = NextOutcome.ret true then
        (nextImpl s).1.row.toList else [])
        ++ (nextImpl s).1.buf = s.buf
  ∧ (nextImpl s).1.fieldNames = s.fieldNames
  ∧ (nextImpl s).1.canceling = s.canceling
  ∧ (nextImpl s).1.closed = false
  ∧ (nextImpl s).1.closing = false
  ∧ (nextImpl s).1.done = false := by
  cases hwn : s.waitNext
  · rcases hb : s.buf with _ | ⟨r, rest⟩
    · simp [nextImpl, hcl, hcg, hwn, hd, hb]
    · cases hcp : s.canPause <;> cases hp : s.paused <;>
        rcases hrc : s.resumeCount with _ | rv <;>
          simp [nextImpl, resumeImpl, hcl, hcg, hwn, hb, hcp, hp, hrc, hd] <;>
            (try split_ifs) <;> simp_all
  · simp [nextImpl, hcl, hcg, hwn, hd]

/-- Helper for the FIFO property: any single consumer operation on a
ready collecting stream preserves the pipeline content — observed rows
followed by the new buffer equal the old buffer followed by the
canonical pushed row — and preserves the phase flags and field names. -/
theorem stepOp_spec {α : Type} (s : RowStream (Row α)) (fs : List String)
    (op : ConsumerOp α)
    (hf : s.fieldNames = some fs) (hc : s.canceling = false)
    (hcl : s.closed = false) (hcg : s.closing = false) (hd : s.done = false) :
    (stepOp s op).2 ++ (stepOp s op).1.buf = s.buf ++ (op.normRow fs).toList
  ∧ (stepOp s op).1.fieldNames = some fs
  ∧ (stepOp s op).1.canceling = false
  ∧ (stepOp s op).1.closed = false
  ∧ (stepOp s op).1.closing = false
  ∧ (stepOp s op).1.done = false := by
  cases op with
  | pushR r =>
    simpa [stepOp, ctrlPushRow, hf, ConsumerOp.normRow, hcl, hcg, hd]
      using pushRowImpl_spec s r hc
  | pushA vs =>
    simpa [stepOp, ctrlPushArray, hf, ConsumerOp.normRow, hcl, hcg, hd]
      using pushRowImpl_spec s (Row.fromArray vs fs) hc
  | pushO record =>
    simpa [stepOp, ctrlPushObject, hf, ConsumerOp.normRow, hcl, hcg, hd]
      using pushRowImpl_spec s (Row.fromObject record fs) hc
  | next =>
    simpa [stepOp, ConsumerOp.normRow, hf, hc]
      using nextImpl_collecting_spec s hcl hcg hd

/-- C5: strict FIFO delivery.  Starting from any ready, collecting
stream, for every sequence of pushes (via any of the three push
variants) and `next()` pulls, the rows the consumer observes through the
`row` accessor, followed by the rows still buffered, are exactly the old
buffer followed by the pushed rows in push order: nothing is reordered,
duplicated, or dropped. -/
theorem consumed_rows_fifo {α : Type} (s : RowStream (Row α)) (fs : List String)
    (ops : List (ConsumerOp α))
    (hf : s.fieldNames = some fs) (hc : s.canceling = false)
    (hcl : s.closed = false) (hcg : s.closing = false) (hd : s.done = false) :
    (runOps s ops).2 ++ (runOps s ops).1.buf = s.buf ++ pushedRows fs ops := by
  induction ops generalizing s with
  | nil => simp [runOps, pushedRows]
  | cons op rest ih =>
    obtain ⟨hbuf, hf2, hc2, hcl2, hcg2, hd2⟩ := stepOp_spec s fs op hf hc hcl hcg hd
    have ihx := ih (stepOp s op).1 hf2 hc2 hcl2 hcg2 hd2
    have hp : pushedRows fs (op :: rest) = (op.normRow fs).toList ++ pushedRows fs rest := by
      rcases hn : op.normRow fs <;> simp [pushedRows, List.filterMap_cons, hn]
    simp only [runOps]
    rw [List.append_assoc, ihx, ← List.append_assoc, hbuf, hp, List.append_assoc]

/-- C5 witness: a concrete interleaving of the three push variants and
pulls on a ready stream delivers the pushed rows in order. -/
theorem consumed_rows_fifo_witness :
    readyR.fieldNames = some ["id"] ∧ readyR.canceling = false
  ∧ readyR.closed = false ∧ readyR.closing = false ∧ readyR.done = false
  ∧ (runOps readyR
        [ConsumerOp.next, ConsumerOp.pushA [1], ConsumerOp.pushR (Row.fromArray [2] ["id"]),
          ConsumerOp.next, ConsumerOp.pushO [("id", 3)], ConsumerOp.next]).2
      ++ (runOps readyR
        [ConsumerOp.next, ConsumerOp.pushA [1], ConsumerOp.pushR (Row.fromArray [2] ["id"]),
          ConsumerOp.next, ConsumerOp.pushO [("id", 3)], ConsumerOp.next]).1.buf
      = readyR.buf ++ pushedRows ["id"]
        [ConsumerOp.next, ConsumerOp.pushA [1], ConsumerOp.pushR (Row.fromArray [2] ["id"]),
          ConsumerOp.next, ConsumerOp.pushO [("id", 3)], ConsumerOp.next] :=
  ⟨by decide, by decide, by decide, by decide, by decide,
    consumed_rows_fifo readyR ["id"]
      [ConsumerOp.next, ConsumerOp.pushA [1], ConsumerOp.pushR (Row.fromArray [2] ["id"]),
        ConsumerOp.next, ConsumerOp.pushO [("id", 3)], ConsumerOp.next]
      (by decide) (by decide) (by decide) (by decide) (by decide)⟩

/-- C10: constructing a `RowStream` whose options carry a `resumeCount`
but no `pauseCount` fails synchronously with the error naming the missing
option, for any canceler choice and any `resumeCount` value. -/
theorem make_resume_without_pause_fails (hasClr : Bool) (r : Int) :
    make Nat hasClr (some (RowStreamOptions.mk none (some r)))
      = .error (Err.mk "pauseCount must be provided with resumeCount") := by
  rfl

end DbDriver
